import Mathlib

/-!
Verification of the InfraDon2 country/message/comment component
(`TheWelcome.vue` and the unnamed sibling component) against its
natural-language specification.

The local PouchDB replica is modelled as a list of JSON-like documents;
each application method that queries or mutates the store is translated
into a pure Lean function over that list.  Fallible store operations
(`get` on a missing id) are modelled with `Option`.
-/

namespace InfraDon2

/-- A JSON-like document of the local store.  Fields cover the union of
the shapes produced by the component's constructors (`createCountry`,
`createMessage`, `createComment`); fields a given document kind does not
use keep their default value, mirroring the absent JSON keys. -/
structure Doc where
  _id : String
  type : String
  name : String := ""
  capital : String := ""
  population : Int := 0
  area : Int := 0
  currency : String := ""
  languages : List String := []
  region : String := ""
  subregion : String := ""
  flag : String := ""
  countryId : String := ""
  messageId : String := ""
  title : String := ""
  content : String := ""
  author : String := ""
  likes : Int := 0
  createdAt : String := ""
deriving DecidableEq, Repr

/-- The local replica: the set of documents, in store order. -/
abbrev Store := List Doc

/-- JavaScript's `String.prototype.trim()`: drop the whitespace at both
ends of the string. -/
def trimStr (s : String) : String :=
  ⟨((s.data.dropWhile Char.isWhitespace).reverse.dropWhile Char.isWhitespace).reverse⟩

/-- `localDB.get(id)` resolved against the store: the document whose
`_id` equals `id`, if any. -/
def getDoc (id : String) (db : Store) : Option Doc :=
  db.find? (fun d => d._id == id)

/-- `localDB.put(doc)`: replace the stored document with the same `_id`,
or append the document if no such id is stored. -/
def putDoc (nd : Doc) (db : Store) : Store :=
  if db.any (fun d => d._id == nd._id) then
    db.map (fun d => if d._id == nd._id then nd else d)
  else db ++ [nd]

/-- `localDB.remove(doc)`: drop every stored document carrying the id. -/
def removeById (id : String) (db : Store) : Store :=
  db.filter (fun d => d._id != id)

/-- The segment of an identifier before its first underscore — the
"kind" encoded in the id by the `` `${type}_${Date.now()}` `` templates. -/
def kindOfId (s : String) : String :=
  ⟨s.data.takeWhile (fun c => c != '_')⟩

/-- `createCountry` (TheWelcome.vue): the document written by
`localDB.put` — id `country_<now>`, `type: 'country'`, the form fields,
with `languages` split on commas and trimmed. -/
def createCountry (now : Nat) (name capital : String) (population area : Int)
    (currency languages region subregion flag createdAt : String) : Doc :=
  { _id := "country_" ++ toString now
    type := "country"
    name := name
    capital := capital
    population := population
    area := area
    currency := currency
    languages := (languages.splitOn ",").map (fun l => trimStr l)
    region := region
    subregion := subregion
    flag := flag
    createdAt := createdAt }

/-- `createMessage` (TheWelcome.vue): id `message_<now>`,
`type: 'message'`, the selected country as foreign key, `likes: 0`. -/
def createMessage (now : Nat) (countryId title content createdAt : String) : Doc :=
  { _id := "message_" ++ toString now
    type := "message"
    countryId := countryId
    title := title
    content := content
    likes := 0
    createdAt := createdAt }

/-- `createComment` (TheWelcome.vue): id `comment_<now>_<rand>`,
`type: 'comment'`, the owning message as foreign key. -/
def createComment (now : Nat) (rand : String)
    (messageId content author createdAt : String) : Doc :=
  { _id := "comment_" ++ toString now ++ "_" ++ rand
    type := "comment"
    messageId := messageId
    content := trimStr content
    author := trimStr author
    createdAt := createdAt }

/-- The comment-cascade selector of `deleteMessage`:
`{ type: 'comment', messageId: id }`. -/
def isCommentOf (id : String) (d : Doc) : Bool :=
  d.type == "comment" && d.messageId == id

/-- `deleteMessage(id)` (TheWelcome.vue): `get` the message (a missing id
raises, is caught, and nothing happens), `remove` it, then `find` the
comments whose `messageId` is `id` and `remove` each one in turn. -/
def deleteMessage (id : String) (db : Store) : Store :=
  match db.find? (fun d => d._id == id) with
  | none => db
  | some doc =>
    let db1 := removeById doc._id db
    let comments := db1.filter (isCommentOf id)
    comments.foldl (fun acc c => removeById c._id acc) db1

/-- The document written by `toggleLike`: decrement clamped at zero when
the session's liked-set holds the message, otherwise increment. -/
def toggleLikeDoc (isLiked : Bool) (doc : Doc) : Doc :=
  if isLiked then { doc with likes := max 0 (doc.likes - 1) }
  else { doc with likes := doc.likes + 1 }

/-- `toggleLike(message)` (TheWelcome.vue): `get` the current revision,
apply the like/unlike delta according to `userLikedMessages`, `put` the
result back and update the liked-set.  Returns the new store and the new
liked-set; a failing `get` is caught and leaves both unchanged. -/
def toggleLike (mid : String) (liked : List String) (db : Store) :
    Store × List String :=
  match db.find? (fun d => d._id == mid) with
  | none => (db, liked)
  | some doc =>
    if liked.contains mid then
      (putDoc (toggleLikeDoc true doc) db, liked.erase mid)
    else
      (putDoc (toggleLikeDoc false doc) db, mid :: liked)

/-- `likeMessage(id)` (unnamed component): `get` the document and `put`
it back with `likes: doc.likes + 1`; a missing id yields `null` and the
method returns without writing. -/
def likeMessage (id : String) (db : Store) : Store :=
  match db.find? (fun d => d._id == id) with
  | none => db
  | some doc => putDoc { doc with likes := doc.likes + 1 } db

/-- The descending-likes order used by the `[type, likes]` index with
`sort: [{likes: 'desc'}]`. -/
def byLikesDesc (a b : Doc) : Prop := b.likes ≤ a.likes

instance : DecidableRel byLikesDesc := fun a b =>
  inferInstanceAs (Decidable (b.likes ≤ a.likes))

instance : IsTotal Doc byLikesDesc := ⟨fun a b => le_total b.likes a.likes⟩

instance : IsTrans Doc byLikesDesc :=
  ⟨fun _ _ _ h h' => le_trans h' h⟩

/-- The message documents of the store: selector `{ type: 'message' }`. -/
def messagesOf (db : Store) : List Doc :=
  db.filter (fun d => d.type == "message")

/-- The `find` call of `fetchTopLikedMessages` (TheWelcome.vue):
selector `{ type: 'message' }`, sorted by `likes` descending, with the
given `limit` and `skip` pushed to the store. -/
def topLikedMessages (limit skip : Nat) (db : Store) : List Doc :=
  (((messagesOf db).insertionSort byLikesDesc).drop skip).take limit

/-- `fetchTopLikedMessages()` without `loadMore`: `limit` is
`topMessagesLimit = 10` and `skip` is the reset offset `0`. -/
def fetchTopLikedMessages (db : Store) : List Doc :=
  topLikedMessages 10 0 db

/-- Case folding used to model a JavaScript `RegExp` with the `i` flag
applied to a literal pattern. -/
def lowerStr (s : String) : List Char :=
  s.data.map Char.toLower

/-- `new RegExp(pat, 'i').test(s)` for a literal, unanchored pattern:
case-insensitive substring match. -/
def regexTestCI (pat s : String) : Bool :=
  decide (lowerStr pat <:+: lowerStr s)

/-- ``new RegExp(`^${pat}$`, 'i').test(s)``: the pattern anchored at both
ends, i.e. case-insensitive whole-string equality. -/
def regexAnchoredCI (pat s : String) : Bool :=
  lowerStr pat == lowerStr s

/-- `fetchCountries()` body (TheWelcome.vue): `allDocs` over the id range
`country_` … `country_￿`, i.e. the documents whose id carries the
country prefix. -/
def fetchCountries (db : Store) : List Doc :=
  db.filter (fun d => "country_".isPrefixOf d._id)

/-- `searchByRegion()` (TheWelcome.vue): with a blank search term the
method falls back to `fetchCountries`; otherwise it issues the selector
`{ type: 'country', region: { $regex: new RegExp(`^term$`, 'i') } }`. -/
def searchByRegion (term : String) (db : Store) : List Doc :=
  if trimStr term == "" then fetchCountries db
  else db.filter (fun d => d.type == "country" && regexAnchoredCI (trimStr term) d.region)

/-- The descending-`createdAt` order used by the date sorts. -/
def byDateDesc (a b : Doc) : Prop := b.createdAt ≤ a.createdAt

instance : DecidableRel byDateDesc := fun a b =>
  inferInstanceAs (Decidable (b.createdAt ≤ a.createdAt))

instance : IsTotal Doc byDateDesc := ⟨fun a b => le_total b.createdAt a.createdAt⟩

instance : IsTrans Doc byDateDesc :=
  ⟨fun _ _ _ h h' => le_trans h' h⟩

/-- `fetchMessages()` (TheWelcome.vue) with a non-blank search term and
the default `sortBy = 'date'`: selector `{ type: 'message', countryId,
title: { $regex: new RegExp(term.trim(), 'i') } }`, sorted by
`createdAt` descending. -/
def fetchMessagesSearch (cid term : String) (db : Store) : List Doc :=
  (db.filter (fun d =>
    d.type == "message" && d.countryId == cid && regexTestCI (trimStr term) d.title)).insertionSort
    byDateDesc

/-- `searchMessages()` (unnamed component): selector
`{ type: 'message', $or: [title matches, content matches] }` with the
raw (untrimmed) search term, sorted by `createdAt` descending. -/
def searchMessages (term : String) (db : Store) : List Doc :=
  (db.filter (fun d =>
    d.type == "message" && (regexTestCI term d.title || regexTestCI term d.content))).insertionSort
    byDateDesc

/-- `getDocument(id)` (unnamed component): a plain `get`; a missing id
raises inside the store, the error is caught and `null` is returned. -/
def getDocument (id : String) (db : Store) : Option Doc :=
  if id == "" then none
  else db.find? (fun d => d._id == id)

/-- `getCountryById(id)` (unnamed component): `get` the document, then
return it only when its `type` is `'country'`, and `null` otherwise;
a failing `get` is caught and yields `null`. -/
def getCountryById (id : String) (db : Store) : Option Doc :=
  if id == "" then none
  else
    match db.find? (fun d => d._id == id) with
    | none => none
    | some doc => if doc.type == "country" then some doc else none

/-- `getMessageById(id)` (unnamed component): as `getCountryById` with
the `'message'` discriminator. -/
def getMessageById (id : String) (db : Store) : Option Doc :=
  if id == "" then none
  else
    match db.find? (fun d => d._id == id) with
    | none => none
    | some doc => if doc.type == "message" then some doc else none

/-!
### Operations against a possibly-unopened store handle

`state.localDB` starts as `null`; each method either begins with the
guard `if (!state.value.localDB) return;` or reaches into the handle
inside its `try`/`catch`.  The handle is modelled as `Option Store`, a
method outcome as the data it yields together with whether its `catch`
branch logged an error.  No method lets an exception escape, so every
outcome is a plain value.
-/

/-- `fetchCountries()` including its `if (!localDB) return;` guard: on a
never-opened handle it returns before touching the store and logs
nothing. -/
def fetchCountriesOp (db : Option Store) : List Doc × Bool :=
  match db with
  | none => ([], false)
  | some s => (fetchCountries s, false)

/-- `fetchTopLikedMessages()` including its null guard. -/
def fetchTopLikedMessagesOp (db : Option Store) : List Doc × Bool :=
  match db with
  | none => ([], false)
  | some s => (fetchTopLikedMessages s, false)

/-- `deleteMessage(id)` including its null guard: a never-opened handle
leaves the store argument untouched and logs nothing. -/
def deleteMessageOp (id : String) (db : Option Store) : Option Store × Bool :=
  match db with
  | none => (none, false)
  | some s => (some (deleteMessage id s), false)

/-- `searchByRegion()` including its guard
`if (!localDB || !searchRegion.trim())`. -/
def searchByRegionOp (term : String) (db : Option Store) : List Doc × Bool :=
  match db with
  | none => ([], false)
  | some s => (searchByRegion term s, false)

/-- The six index field lists declared by `createIndexes()`
(TheWelcome.vue). -/
def indexFieldSets : List (List String) :=
  [["type", "region"],
   ["type", "countryId", "likes"],
   ["type", "countryId", "createdAt"],
   ["type", "countryId", "title"],
   ["type", "messageId", "createdAt"],
   ["type", "likes"]]

/-- `createIndexes()` (TheWelcome.vue).  The method has **no** null
guard: `await state.value.localDB.createIndex(...)` on a `null` handle
raises a `TypeError` inside the `try`, the `catch` logs the error and
the method returns having declared nothing.  On an open handle all six
indexes are declared. -/
def createIndexes (db : Option Store) : List (List String) × Bool :=
  match db with
  | none => ([], true)
  | some _ => (indexFieldSets, false)

/-- One-shot replication of every document the target lacks, keyed by
id: `localDB.replicate.from(remoteDB)` and each direction of `sync`. -/
def replicateInto (target source : Store) : Store :=
  target ++ source.filter (fun d => !target.any (fun t => t._id == d._id))

/-- `replicateFromRemote()` (TheWelcome.vue).  Like `createIndexes` it
has **no** null guard: on a `null` local handle the member access inside
the `try` raises, the `catch` logs, and the store is untouched. -/
def replicateFromRemote (db : Option Store) (remote : Store) :
    Option Store × Bool :=
  match db with
  | none => (none, true)
  | some s => (some (replicateInto s remote), false)

/-!
### Online/offline toggling and continuous sync

`toggleOnlineOffline`, `startContinuousSync` and `stopContinuousSync`
are translated from TheWelcome.vue.  The replication stream itself runs
inside PouchDB, outside this repository's source.
-/

/-- The sync-related component state: both stores, the user-toggled
online belief and whether a live sync handler is registered
(`syncHandler !== null`). -/
structure SyncState where
  localDocs : Store
  remoteDocs : Store
  isOnline : Bool
  syncHandler : Bool
deriving DecidableEq, Repr

/-- `startContinuousSync()`: returns immediately when offline, otherwise
registers the live bidirectional sync handler. -/
def startContinuousSync (s : SyncState) : SyncState :=
  if !s.isOnline then s else { s with syncHandler := true }

/-- `stopContinuousSync()`: cancels and clears the handler when one is
registered. -/
def stopContinuousSync (s : SyncState) : SyncState :=
  if s.syncHandler then { s with syncHandler := false } else s

/-- `toggleOnlineOffline()`: flip the online flag, then start or stop
the continuous sync accordingly. -/
def toggleOnlineOffline (s : SyncState) : SyncState :=
  let s' := { s with isOnline := !s.isOnline }
  if s'.isOnline then startContinuousSync s' else stopContinuousSync s'

/-- Modelled from the spec: the continuous bidirectional replication the
Replication Controller delegates to the underlying store
(`localDB.sync(remoteDB, {live: true, retry: true})` — the propagation
itself is PouchDB library code, absent from this repository's source).
While the handler is registered, a propagation step carries each side's
documents absent from the other side across; with no handler registered
nothing is propagated. -/
def syncStep (s : SyncState) : SyncState :=
  if s.syncHandler then
    { s with
      localDocs := replicateInto s.localDocs s.remoteDocs
      remoteDocs := replicateInto s.remoteDocs s.localDocs }
  else s

/-- A local write while the component state is `s`: the document is put
into the local replica only. -/
def localPut (d : Doc) (s : SyncState) : SyncState :=
  { s with localDocs := putDoc d s.localDocs }

/-!
### Helper lemmas
-/

theorem mem_removeById {d : Doc} {id : String} {db : Store} :
    d ∈ removeById id db ↔ d ∈ db ∧ d._id ≠ id := by
  simp [removeById, List.mem_filter, bne_iff_ne]

theorem mem_foldl_removeById {d : Doc} :
    ∀ (l : List Doc) (acc : Store),
      d ∈ l.foldl (fun acc c => removeById c._id acc) acc →
      d ∈ acc ∧ ∀ c ∈ l, d._id ≠ c._id
  | [], _, h => ⟨h, by simp⟩
  | c :: cs, acc, h => by
    have ih := mem_foldl_removeById cs (removeById c._id acc) h
    have h1 := mem_removeById.mp ih.1
    refine ⟨h1.1, fun c' hc' => ?_⟩
    rcases List.mem_cons.mp hc' with rfl | hcs
    · exact h1.2
    · exact ih.2 c' hcs

theorem mem_putDoc {d' : Doc} {nd : Doc} {db : Store}
    (h : d' ∈ putDoc nd db) : d' = nd ∨ d' ∈ db := by
  unfold putDoc at h
  split at h
  · rcases List.mem_map.mp h with ⟨a, ha, rfl⟩
    by_cases hid : a._id == nd._id
    · left; simp [hid]
    · right; simpa [hid] using ha
  · rcases List.mem_append.mp h with ha | ha
    · exact Or.inr ha
    · exact Or.inl (by simpa using ha)

theorem find?_map_putDoc (nd : Doc) :
    ∀ db : Store, db.any (fun d => d._id == nd._id) = true →
      (db.map (fun d => if d._id == nd._id then nd else d)).find?
        (fun d => d._id == nd._id) = some nd
  | [], h => by simp at h
  | a :: as, h => by
    rw [List.map_cons]
    by_cases ha : (a._id == nd._id) = true
    · rw [if_pos ha, List.find?_cons_of_pos _ (by simp)]
    · have ha' : (a._id == nd._id) = false := by simpa using ha
      rw [if_neg ha]
      simp only [List.find?_cons, ha']
      exact find?_map_putDoc nd as (by simpa [List.any_cons, ha'] using h)

theorem find?_putDoc (nd : Doc) (db : Store) (id : String) (hid : nd._id = id) :
    (putDoc nd db).find? (fun d => d._id == id) = some nd := by
  subst hid
  unfold putDoc
  split
  case isTrue h => exact find?_map_putDoc nd db h
  case isFalse h =>
    rw [List.find?_append]
    have hnone : db.find? (fun d => d._id == nd._id) = none := by
      refine List.find?_eq_none.mpr fun d hd hbeq => ?_
      exact absurd (List.any_eq_true.mpr ⟨d, hd, hbeq⟩) h
    simp [hnone, List.find?_cons]

theorem replicateInto_self (l : Store) : replicateInto l l = l := by
  unfold replicateInto
  have hnil : l.filter (fun d => !l.any (fun t => t._id == d._id)) = [] := by
    refine List.filter_eq_nil_iff.mpr fun d hd => ?_
    simp only [Bool.not_eq_true', Bool.not_eq_false]
    exact List.any_eq_true.mpr ⟨d, hd, by simp⟩
  rw [hnil, List.append_nil]

theorem syncStep_of_handler_false {s : SyncState} (h : s.syncHandler = false) :
    syncStep s = s := by
  simp [syncStep, h]

theorem syncStep_iterate_of_handler_false {s : SyncState}
    (h : s.syncHandler = false) : ∀ n : Nat, syncStep^[n] s = s := by
  intro n
  induction n with
  | zero => rfl
  | succ k ih => rw [Function.iterate_succ_apply, syncStep_of_handler_false h, ih]

/-!
### Claims
-/

/-- **C6**: every document produced by the create operations has an
identifier whose segment before the first underscore equals its `type`
field; country identifiers moreover begin with `country_`, and the
analogous facts hold for messages and comments. -/
theorem created_id_kind_matches_type :
    (∀ (now : Nat) (name capital : String) (population area : Int)
        (currency languages region subregion flag createdAt : String),
      kindOfId (createCountry now name capital population area currency
          languages region subregion flag createdAt)._id =
        (createCountry now name capital population area currency
          languages region subregion flag createdAt).type ∧
      "country_".data <+: (createCountry now name capital population area currency
          languages region subregion flag createdAt)._id.data) ∧
    (∀ (now : Nat) (countryId title content createdAt : String),
      kindOfId (createMessage now countryId title content createdAt)._id =
        (createMessage now countryId title content createdAt).type ∧
      "message_".data <+: (createMessage now countryId title content createdAt)._id.data) ∧
    (∀ (now : Nat) (rand messageId content author createdAt : String),
      kindOfId (createComment now rand messageId content author createdAt)._id =
        (createComment now rand messageId content author createdAt).type ∧
      "comment_".data <+: (createComment now rand messageId content author createdAt)._id.data) :=
  ⟨fun now _ _ _ _ _ _ _ _ _ _ => ⟨rfl, (toString now).data, rfl⟩,
   fun now _ _ _ _ => ⟨rfl, (toString now).data, rfl⟩,
   fun now rand _ _ _ _ => ⟨rfl, by
     refine ⟨(toString now).data ++ '_' :: rand.data, ?_⟩
     show "comment_".data ++ ((toString now).data ++ '_' :: rand.data) = _
     simp [createComment, String.data_append]⟩⟩

/-- **C7**: for an id not stored, the point lookups return `null`
(`none`) instead of raising: `getDocument`, `getCountryById` and
`getMessageById` all observe the missing document as `none`. -/
theorem getById_missing_returns_null (id : String) (db : Store)
    (h : ∀ d ∈ db, d._id ≠ id) :
    getDocument id db = none ∧ getCountryById id db = none ∧
      getMessageById id db = none := by
  have hfind : db.find? (fun d => d._id == id) = none :=
    List.find?_eq_none.mpr fun d hd hbeq => h d hd (by simpa using hbeq)
  refine ⟨?_, ?_, ?_⟩ <;>
    simp only [getDocument, getCountryById, getMessageById, hfind] <;>
    split <;> rfl

/-- **C7 witness**: the store holding one message does not contain
`country_404`, and all three lookups return `none` on it. -/
theorem getById_missing_returns_null_witness :
    getDocument "country_404" [{ _id := "message_1", type := "message" }] = none ∧
    getCountryById "country_404" [{ _id := "message_1", type := "message" }] = none ∧
    getMessageById "country_404" [{ _id := "message_1", type := "message" }] = none :=
  getById_missing_returns_null "country_404"
    [{ _id := "message_1", type := "message" }] (by decide)

/-- **C10**: the typed point lookups additionally filter on the `type`
discriminator: a stored document is returned by `getCountryById` only
when its `type` is `"country"` (else `null`), and by `getMessageById`
only when its `type` is `"message"` (else `null`). -/
theorem getById_checks_type (id : String) (db : Store) (doc : Doc)
    (hid : id ≠ "")
    (hfind : db.find? (fun d => d._id == id) = some doc) :
    (doc.type = "country" → getCountryById id db = some doc) ∧
    (doc.type ≠ "country" → getCountryById id db = none) ∧
    (doc.type = "message" → getMessageById id db = some doc) ∧
    (doc.type ≠ "message" → getMessageById id db = none) := by
  have hid' : (id == "") = false := beq_eq_false_iff_ne.mpr hid
  refine ⟨fun ht => ?_, fun ht => ?_, fun ht => ?_, fun ht => ?_⟩ <;>
    simp [getCountryById, getMessageById, hid', hfind, ht]

/-- **C10 witness**: a stored document of type `"message"` is returned
by `getMessageById` and hidden (`none`) by `getCountryById`. -/
theorem getById_checks_type_witness :
    getCountryById "message_1" [{ _id := "message_1", type := "message" }] = none ∧
    getMessageById "message_1" [{ _id := "message_1", type := "message" }] =
      some { _id := "message_1", type := "message" } := by
  have h := getById_checks_type "message_1"
    [{ _id := "message_1", type := "message" }]
    { _id := "message_1", type := "message" } (by decide) (by decide)
  exact ⟨h.2.1 (by decide), h.2.2.1 rfl⟩

/-- **C2**: deleting a stored message cascades — afterwards the selector
`{ type: 'comment', messageId: id }` matches no stored document. -/
theorem deleteMessage_cascade (id : String) (db : Store)
    (h : (db.find? (fun d => d._id == id)).isSome) :
    (deleteMessage id db).filter (isCommentOf id) = [] := by
  obtain ⟨doc, hdoc⟩ := Option.isSome_iff_exists.mp h
  unfold deleteMessage
  rw [hdoc]
  refine List.filter_eq_nil_iff.mpr fun d hd hpred => ?_
  obtain ⟨hdin, hids⟩ := mem_foldl_removeById _ _ hd
  have hdc : d ∈ (removeById doc._id db).filter (isCommentOf id) :=
    List.mem_filter.mpr ⟨hdin, hpred⟩
  exact hids d hdc rfl

/-- **C2 witness**: deleting `message_1` from a store holding the
message and two of its comments leaves no comment referencing it. -/
theorem deleteMessage_cascade_witness :
    (([{ _id := "message_1", type := "message" },
       { _id := "comment_1", type := "comment", messageId := "message_1" },
       { _id := "comment_2", type := "comment", messageId := "message_1" }] :
        Store).find? (fun d => d._id == "message_1")).isSome = true ∧
    (deleteMessage "message_1"
      [{ _id := "message_1", type := "message" },
       { _id := "comment_1", type := "comment", messageId := "message_1" },
       { _id := "comment_2", type := "comment", messageId := "message_1" }]).filter
      (isCommentOf "message_1") = [] :=
  ⟨by decide, deleteMessage_cascade "message_1" _ (by decide)⟩

/-- **C8 counterexample**: `createIndexes()` is *not* guarded by a
null-check: applied to the never-opened handle it runs into its `catch`
branch and logs an error, rather than silently no-opping. -/
theorem createIndexes_null_not_silent : (createIndexes none).2 = true := rfl

/-- **C8 amended**: on a never-opened handle every modelled operation
returns without throwing and without touching a store; the query and
command methods are guarded by an explicit null-check and stay silent,
while `createIndexes` and `replicateFromRemote` lack the guard and
instead log the caught null-dereference error. -/
theorem nullHandle_ops_amended :
    (∀ id : String, deleteMessageOp id none = (none, false)) ∧
    fetchCountriesOp none = ([], false) ∧
    fetchTopLikedMessagesOp none = ([], false) ∧
    (∀ term : String, searchByRegionOp term none = ([], false)) ∧
    createIndexes none = ([], true) ∧
    (∀ remote : Store, replicateFromRemote none remote = (none, true)) :=
  ⟨fun _ => rfl, rfl, rfl, fun _ => rfl, rfl, fun _ => rfl⟩

/-- **C4**: the `likes ≥ 0` invariant is preserved by the like
operations; a like adds exactly 1, an unlike of a message with
`likes ≥ 1` subtracts exactly 1, and an unlike of a message with
`likes = 0` clamps at 0.  `createMessage` starts the counter at 0 and
the unnamed component's `likeMessage` only ever adds 1. -/
theorem likes_invariant_preserved :
    (∀ (mid : String) (liked : List String) (db : Store),
      (∀ d ∈ db, 0 ≤ d.likes) → ∀ d' ∈ (toggleLike mid liked db).1, 0 ≤ d'.likes) ∧
    (∀ (id : String) (db : Store),
      (∀ d ∈ db, 0 ≤ d.likes) → ∀ d' ∈ likeMessage id db, 0 ≤ d'.likes) ∧
    (∀ doc : Doc, (toggleLikeDoc false doc).likes = doc.likes + 1) ∧
    (∀ doc : Doc, 1 ≤ doc.likes → (toggleLikeDoc true doc).likes = doc.likes - 1) ∧
    (∀ doc : Doc, doc.likes = 0 → (toggleLikeDoc true doc).likes = 0) ∧
    (∀ (now : Nat) (countryId title content createdAt : String),
      (createMessage now countryId title content createdAt).likes = 0) := by
  refine ⟨?_, ?_, ?_, ?_, ?_, ?_⟩
  · intro mid liked db hinv d' hd'
    unfold toggleLike at hd'
    rcases hfind : db.find? (fun d => d._id == mid) with _ | doc <;> rw [hfind] at hd'
    · exact hinv d' hd'
    · have hdoc : 0 ≤ doc.likes := hinv doc (List.mem_of_find?_eq_some hfind)
      dsimp only at hd'
      by_cases hl : liked.contains mid = true
      · rw [if_pos hl] at hd'
        replace hd' : d' ∈ putDoc (toggleLikeDoc true doc) db := hd'
        rcases mem_putDoc hd' with rfl | hin
        · exact le_max_left 0 _
        · exact hinv _ hin
      · rw [if_neg hl] at hd'
        replace hd' : d' ∈ putDoc (toggleLikeDoc false doc) db := hd'
        rcases mem_putDoc hd' with rfl | hin
        · show 0 ≤ (toggleLikeDoc false doc).likes
          simp only [toggleLikeDoc, if_neg Bool.false_ne_true]
          omega
        · exact hinv _ hin
  · intro id db hinv d' hd'
    unfold likeMessage at hd'
    rcases hfind : db.find? (fun d => d._id == id) with _ | doc <;> rw [hfind] at hd'
    · exact hinv d' hd'
    · have hdoc : 0 ≤ doc.likes := hinv doc (List.mem_of_find?_eq_some hfind)
      rcases mem_putDoc hd' with rfl | hin
      · simpa using by omega
      · exact hinv _ hin
  · intro doc; rfl
  · intro doc h; simp [toggleLikeDoc]; omega
  · intro doc h; simp [toggleLikeDoc, h]
  · intro now countryId title content createdAt; rfl

/-- **C4 witness**: concrete instances — a like on a zero-like message
yields 1, an unlike at 5 yields 4, an unlike at 0 stays 0, and the store
after a like still satisfies the invariant on its first element. -/
theorem likes_invariant_preserved_witness :
    (toggleLikeDoc false { _id := "message_1", type := "message", likes := 0 }).likes = 1 ∧
    (toggleLikeDoc true { _id := "message_1", type := "message", likes := 5 }).likes = 4 ∧
    (toggleLikeDoc true { _id := "message_1", type := "message", likes := 0 }).likes = 0 ∧
    0 ≤ (((toggleLike "message_1" []
        [{ _id := "message_1", type := "message", likes := 0 }]).1).headD
        { _id := "message_1", type := "message", likes := 0 }).likes := by
  have h := likes_invariant_preserved
  refine ⟨h.2.2.1 _, ?_, h.2.2.2.2.1 _ rfl, ?_⟩
  · have := h.2.2.2.1 { _id := "message_1", type := "message", likes := 5 } (by decide)
    simpa using this
  · exact h.1 "message_1" []
      [{ _id := "message_1", type := "message", likes := 0 }] (by decide) _ (by decide)

/-- **C5**: starting from a stored message with `likes = 0` not in the
session's liked-set, toggling the like twice (a like, then an unlike)
stores a document with `likes = 0` again. -/
theorem toggleLike_twice_roundtrip (db : Store) (liked : List String)
    (mid : String) (doc : Doc)
    (hfind : db.find? (fun d => d._id == mid) = some doc)
    (h0 : doc.likes = 0)
    (hnl : liked.contains mid = false) :
    ∃ doc',
      ((toggleLike mid (toggleLike mid liked db).2 (toggleLike mid liked db).1).1).find?
        (fun d => d._id == mid) = some doc' ∧ doc'.likes = 0 := by
  have hdid : doc._id = mid := by
    have := List.find?_some hfind
    simpa using this
  have hstep1 : toggleLike mid liked db =
      (putDoc (toggleLikeDoc false doc) db, mid :: liked) := by
    unfold toggleLike
    rw [hfind]
    dsimp only
    rw [if_neg (by intro h; rw [hnl] at h; exact Bool.false_ne_true h)]
  have hfind1 : (putDoc (toggleLikeDoc false doc) db).find?
      (fun d => d._id == mid) = some (toggleLikeDoc false doc) :=
    find?_putDoc _ _ _ (by simpa [toggleLikeDoc] using hdid)
  refine ⟨toggleLikeDoc true (toggleLikeDoc false doc), ?_, ?_⟩
  · rw [hstep1]
    unfold toggleLike
    dsimp only
    rw [hfind1]
    dsimp only
    rw [if_pos (by simp)]
    exact find?_putDoc _ _ _ (by simpa [toggleLikeDoc] using hdid)
  · simp [toggleLikeDoc, h0]

/-- **C5 witness**: on the one-message store with `likes = 0`, the
like/unlike pair stores `likes = 0` again. -/
theorem toggleLike_twice_roundtrip_witness :
    ∃ doc',
      ((toggleLike "message_1"
          (toggleLike "message_1" [] [{ _id := "message_1", type := "message", likes := 0 }]).2
          (toggleLike "message_1" [] [{ _id := "message_1", type := "message", likes := 0 }]).1).1).find?
        (fun d => d._id == "message_1") = some doc' ∧ doc'.likes = 0 :=
  toggleLike_twice_roundtrip
    [{ _id := "message_1", type := "message", likes := 0 }] [] "message_1"
    { _id := "message_1", type := "message", likes := 0 } (by decide) rfl (by decide)

/-- **C3**: toggling online→offline cancels the sync handler, so local
writes issued while offline never reach the remote store however many
propagation steps elapse; toggling offline→online with no intervening
writes re-registers the handler, and when the two replicas were already
convergent the restarted sync step creates and duplicates nothing. -/
theorem toggleOnlineOffline_sync (s : SyncState) (hon : s.isOnline = true) :
    (toggleOnlineOffline s).syncHandler = false ∧
    (∀ (d : Doc) (n : Nat),
      (syncStep^[n] (localPut d (toggleOnlineOffline s))).remoteDocs = s.remoteDocs) ∧
    (toggleOnlineOffline (toggleOnlineOffline s)).syncHandler = true ∧
    (s.localDocs = s.remoteDocs →
      syncStep (toggleOnlineOffline (toggleOnlineOffline s)) =
        toggleOnlineOffline (toggleOnlineOffline s)) := by
  have hs1 : toggleOnlineOffline s =
      { s with isOnline := false, syncHandler := false } := by
    unfold toggleOnlineOffline startContinuousSync stopContinuousSync
    rcases s with ⟨l, r, o, hneg⟩
    simp only at hon
    subst hon
    cases hneg <;> simp
  have hs2 : toggleOnlineOffline (toggleOnlineOffline s) =
      { s with isOnline := true, syncHandler := true } := by
    rw [hs1]
    unfold toggleOnlineOffline startContinuousSync stopContinuousSync
    simp
  refine ⟨by rw [hs1], fun d n => ?_, by rw [hs2], fun hconv => ?_⟩
  · have hput : localPut d (toggleOnlineOffline s) =
        { s with localDocs := putDoc d s.localDocs, isOnline := false,
                 syncHandler := false } := by
      rw [hs1]; rfl
    rw [hput, syncStep_iterate_of_handler_false rfl]
  · rw [hs2]
    unfold syncStep
    rw [if_pos rfl]
    rw [hconv, replicateInto_self]

/-- **C3 witness**: on a convergent one-document pair of stores, going
offline, writing locally and letting one propagation step elapse leaves
the remote unchanged; going offline and back online restarts sync and
the next step changes nothing. -/
theorem toggleOnlineOffline_sync_witness :
    (syncStep^[1] (localPut { _id := "message_9", type := "message" }
        (toggleOnlineOffline
          { localDocs := [{ _id := "message_1", type := "message" }],
            remoteDocs := [{ _id := "message_1", type := "message" }],
            isOnline := true, syncHandler := true }))).remoteDocs =
      [{ _id := "message_1", type := "message" }] ∧
    syncStep (toggleOnlineOffline (toggleOnlineOffline
        { localDocs := [{ _id := "message_1", type := "message" }],
          remoteDocs := [{ _id := "message_1", type := "message" }],
          isOnline := true, syncHandler := true })) =
      toggleOnlineOffline (toggleOnlineOffline
        { localDocs := [{ _id := "message_1", type := "message" }],
          remoteDocs := [{ _id := "message_1", type := "message" }],
          isOnline := true, syncHandler := true }) := by
  have h := toggleOnlineOffline_sync
    { localDocs := [{ _id := "message_1", type := "message" }],
      remoteDocs := [{ _id := "message_1", type := "message" }],
      isOnline := true, syncHandler := true } rfl
  exact ⟨h.2.1 { _id := "message_9", type := "message" } 1, h.2.2.2 rfl⟩

/-- **C9 counterexample**: `searchByRegion` anchors its pattern
(`^term$`), so a country whose region merely *contains* the term
case-insensitively — `"Western Europe"` contains `"Europe"` — is not
returned, contradicting substring matching on `region`. -/
theorem searchByRegion_not_substring :
    regexTestCI "Europe"
      ({ _id := "country_1", type := "country", region := "Western Europe" } : Doc).region
        = true ∧
    ({ _id := "country_1", type := "country", region := "Western Europe" } : Doc) ∈
      ([{ _id := "country_1", type := "country", region := "Western Europe" }] : Store) ∧
    ({ _id := "country_1", type := "country", region := "Western Europe" } : Doc) ∉
      searchByRegion "Europe"
        [{ _id := "country_1", type := "country", region := "Western Europe" }] := by
  decide

/-- **C9 amended**: message search is case-insensitive substring
matching — `fetchMessages` on `title`, `searchMessages` on `title` or
`content` — and every match is included in the result; `searchByRegion`,
however, matches the *whole* region string case-insensitively (its
pattern is anchored as `^term$`), and includes every country whose
region equals the term up to case. -/
theorem search_caseInsensitive_match (db : Store) (term : String) (d : Doc)
    (hterm : trimStr term ≠ "")
    (hd : d ∈ db) :
    (d.type = "country" → regexAnchoredCI (trimStr term) d.region = true →
      d ∈ searchByRegion term db) ∧
    (∀ cid : String, d.type = "message" → d.countryId = cid →
      regexTestCI (trimStr term) d.title = true →
      d ∈ fetchMessagesSearch cid term db) ∧
    (d.type = "message" →
      regexTestCI term d.title = true ∨ regexTestCI term d.content = true →
      d ∈ searchMessages term db) := by
  refine ⟨fun ht hr => ?_, fun cid ht hc htitle => ?_, fun ht hm => ?_⟩
  · unfold searchByRegion
    rw [if_neg (by simpa using hterm)]
    exact List.mem_filter.mpr ⟨hd, by simp [ht, hr]⟩
  · unfold fetchMessagesSearch
    rw [List.mem_insertionSort]
    exact List.mem_filter.mpr ⟨hd, by simp [ht, hc, htitle]⟩
  · unfold searchMessages
    rw [List.mem_insertionSort]
    refine List.mem_filter.mpr ⟨hd, ?_⟩
    rcases hm with hm | hm <;> simp [ht, hm]

/-- **C9 witness**: a country with region `"Europe"` is found by
`searchByRegion "europe"`, and a message whose title contains `"paris"`
up to case is found by the title search. -/
theorem search_caseInsensitive_match_witness :
    ({ _id := "country_1", type := "country", region := "Europe" } : Doc) ∈
      searchByRegion "europe"
        [{ _id := "country_1", type := "country", region := "Europe" }] ∧
    ({ _id := "message_1", type := "message", countryId := "country_1",
        title := "Bonjour Paris" } : Doc) ∈
      fetchMessagesSearch "country_1" "paris"
        [{ _id := "message_1", type := "message", countryId := "country_1",
           title := "Bonjour Paris" }] := by
  refine ⟨?_, ?_⟩
  · exact (search_caseInsensitive_match
      [{ _id := "country_1", type := "country", region := "Europe" }] "europe"
      { _id := "country_1", type := "country", region := "Europe" }
      (by decide) (by decide)).1 rfl (by decide)
  · exact (search_caseInsensitive_match
      [{ _id := "message_1", type := "message", countryId := "country_1",
         title := "Bonjour Paris" }] "paris"
      { _id := "message_1", type := "message", countryId := "country_1",
        title := "Bonjour Paris" }
      (by decide) (by decide)).2.1 "country_1" rfl rfl (by decide)

/-- The eleven-message store used to exercise the top-10 query: message
`i` carries `likes = i`. -/
def topTestStore : Store :=
  (List.range 11).map (fun i =>
    { _id := "message_" ++ toString i, type := "message", likes := (i : Int) })

/-- The lowest-liked message of `topTestStore`. -/
def topTestMin : Doc := { _id := "message_0", type := "message", likes := 0 }

/-- **C1**: on a store holding at least 11 message documents with
pairwise-distinct `likes`, the top-10 request returns exactly 10
messages, strictly decreasing in `likes`, and the message with the
lowest `likes` value is not among them. -/
theorem fetchTopLikedMessages_top10 (db : Store) (m : Doc)
    (hlen : 11 ≤ (messagesOf db).length)
    (hdist : (messagesOf db).Pairwise (fun a b => a.likes ≠ b.likes))
    (_hm : m ∈ messagesOf db)
    (hmin : ∀ m' ∈ messagesOf db, m' ≠ m → m.likes < m'.likes) :
    (fetchTopLikedMessages db).length = 10 ∧
    (fetchTopLikedMessages db).Pairwise (fun a b => b.likes < a.likes) ∧
    m ∉ fetchTopLikedMessages db := by
  have hfetch : fetchTopLikedMessages db =
      ((messagesOf db).insertionSort byLikesDesc).take 10 := by
    unfold fetchTopLikedMessages topLikedMessages
    rw [List.drop_zero]
  set L := (messagesOf db).insertionSort byLikesDesc with hL
  have hperm : L.Perm (messagesOf db) := List.perm_insertionSort _ _
  have hsorted : L.Pairwise byLikesDesc := List.sorted_insertionSort _ _
  have hdistL : L.Pairwise (fun a b => a.likes ≠ b.likes) :=
    (hperm.pairwise_iff fun hab => Ne.symm hab).mpr hdist
  have hlenL : L.length = (messagesOf db).length := hperm.length_eq
  refine ⟨?_, ?_, ?_⟩
  · rw [hfetch, List.length_take]
    omega
  · rw [hfetch]
    have h1 : (L.take 10).Pairwise byLikesDesc :=
      hsorted.sublist (List.take_sublist _ _)
    have h2 : (L.take 10).Pairwise (fun a b => a.likes ≠ b.likes) :=
      hdistL.sublist (List.take_sublist _ _)
    exact (h1.and h2).imp fun hab => lt_of_le_of_ne hab.1 (Ne.symm hab.2)
  · rw [hfetch]
    intro hmem
    have hsplit : L.take 10 ++ L.drop 10 = L := List.take_append_drop 10 L
    have hdropne : L.drop 10 ≠ [] := by
      have hld : (L.drop 10).length = L.length - 10 := List.length_drop 10 L
      intro hnil
      rw [hnil] at hld
      simp only [List.length_nil] at hld
      omega
    obtain ⟨y, hy⟩ := List.exists_mem_of_ne_nil _ hdropne
    have hsorted' : (L.take 10 ++ L.drop 10).Pairwise byLikesDesc := by
      rw [hsplit]; exact hsorted
    have hdist' : (L.take 10 ++ L.drop 10).Pairwise (fun a b => a.likes ≠ b.likes) := by
      rw [hsplit]; exact hdistL
    have hle : y.likes ≤ m.likes :=
      (List.pairwise_append.mp hsorted').2.2 m hmem y hy
    have hne : m.likes ≠ y.likes :=
      (List.pairwise_append.mp hdist').2.2 m hmem y hy
    have hyL : y ∈ messagesOf db := hperm.subset (List.mem_of_mem_drop hy)
    by_cases hym : y = m
    · exact hne (by rw [hym])
    · exact absurd hle (not_le.mpr (hmin y hyL hym))

/-- **C1 witness**: on the eleven-message store with likes `0 … 10`, the
top-10 request returns 10 messages and omits the zero-like message. -/
theorem fetchTopLikedMessages_top10_witness :
    (fetchTopLikedMessages topTestStore).length = 10 ∧
    topTestMin ∉ fetchTopLikedMessages topTestStore := by
  have h := fetchTopLikedMessages_top10 topTestStore topTestMin
    (by decide) (by decide) (by decide) (by decide)
  exact ⟨h.1, h.2.2⟩

end InfraDon2
